import Mathlib

/-!
Verification of the UART stress-test engine in `stress_test_uart.py`
(repository GPIOTE-GPPI-TIMER).

The Python script drives a pulse-generator device over a serial line:
it generates commands (`SF;<n>`, `SW;<n>`, `SA;<n>`, `SON`, `SOFF`, and
malformed catalog entries), sends them in bursts, reads framed responses,
classifies each response, and tracks the expected running/stopped state.

This file gives a shallow embedding of that engine: strings are Lean
`String`s, Python's `in` / `upper()` / `lower()` / `strip()` are modelled
character-wise on the ASCII protocol alphabet, the pseudo-random source and
the device are modelled as explicit oracles, and the main loop of
`test_sequence` becomes structural recursion over the iteration count.
-/

namespace StressUart

/-- `startsL l p` : does the character list `l` begin with `p`?
(Helper for Python's substring operator `in`.) -/
def startsL : List Char → List Char → Bool
  | _, [] => true
  | [], _ :: _ => false
  | a :: as, b :: bs => (a == b) && startsL as bs

/-- `hasSubL l p` : does `l` contain `p` as a contiguous sublist?
This is Python's `p in l` on strings. -/
def hasSubL : List Char → List Char → Bool
  | [], p => p.isEmpty
  | a :: as, p => startsL (a :: as) p || hasSubL as p

/-- Python's `pat in s` substring test. -/
def strHas (s pat : String) : Bool :=
  hasSubL s.data pat.data

/-- Python's `s.upper()` (ASCII protocol alphabet). -/
def strUpper (s : String) : String :=
  ⟨s.data.map Char.toUpper⟩

/-- Python's `s.lower()` (ASCII protocol alphabet). -/
def strLower (s : String) : String :=
  ⟨s.data.map Char.toLower⟩

/-- ASCII whitespace as stripped by Python's `str.strip()`. -/
def isPySpace (c : Char) : Bool :=
  c == ' ' || c == '\t' || c == '\n' || c == '\r' || c == '\x0b' || c == '\x0c'

/-- Python's `s.strip() == ''` : every character is whitespace. -/
def stripEmpty (s : String) : Bool :=
  s.data.all isPySpace

/-- `is_ok` from `test_sequence` (line 164):
`'OK' in resp_upper or 'STARTED' in resp_upper or 'STOPPED' in resp_upper`. -/
def is_ok (resp : String) : Bool :=
  let u := strUpper resp
  strHas u "OK" || strHas u "STARTED" || strHas u "STOPPED"

/-- `is_already` from `test_sequence` (line 165): `'ALREADY' in resp_upper`. -/
def is_already (resp : String) : Bool :=
  strHas (strUpper resp) "ALREADY"

/-- `is_error` from `test_sequence` (line 166), verbatim:
`'ERROR' in resp_upper or 'UNKNOWN' in resp_upper.lower()`.
Note the second disjunct applies `.lower()` before searching for the
upper-case literal `'UNKNOWN'`. -/
def is_error (resp : String) : Bool :=
  let u := strUpper resp
  strHas u "ERROR" || strHas (strLower u) "UNKNOWN"

/-- Success test used by both control-command branches:
`is_ok or is_already` (lines 170 and 178). -/
def ctrlSuccess (resp : String) : Bool :=
  is_ok resp || is_already resp

/-- The `stats` dictionary of `test_sequence` (lines 92-93). -/
structure Stats where
  sent : Nat
  ok : Nat
  error : Nat
  start_ok : Nat
  stop_ok : Nat
  start_err : Nat
  stop_err : Nat
  responses : List (String × String)
  deriving Repr, DecidableEq

/-- Initial statistics (lines 92-93): all counters zero, no responses. -/
def stats0 : Stats :=
  ⟨0, 0, 0, 0, 0, 0, 0, []⟩

/-- Per-command bookkeeping common to every branch:
`stats['sent'] += 1` (line 145) and
`stats['responses'].append((cmd, resp))` (line 157). -/
def bump (st : Stats) (cmd resp : String) : Stats :=
  { st with sent := st.sent + 1, responses := st.responses ++ [(cmd, resp)] }

/-- Response analysis and state update from `test_sequence` (lines 145-193):
given the command string sent, the raw response, the statistics so far and
the tracked `system_running` flag, produce the updated statistics and flag. -/
def classifyStep (cmd resp : String) (st : Stats) (running : Bool) :
    Stats × Bool :=
  let st1 := bump st cmd resp
  if cmd = "SON" then
    if is_ok resp || is_already resp then
      ({ st1 with start_ok := st1.start_ok + 1, ok := st1.ok + 1 }, true)
    else
      ({ st1 with start_err := st1.start_err + 1, error := st1.error + 1 }, running)
  else if cmd = "SOFF" then
    if is_ok resp || is_already resp then
      ({ st1 with stop_ok := st1.stop_ok + 1, ok := st1.ok + 1 }, false)
    else
      ({ st1 with stop_err := st1.stop_err + 1, error := st1.error + 1 }, running)
  else if is_ok resp then
    ({ st1 with ok := st1.ok + 1 }, running)
  else if is_error resp then
    ({ st1 with error := st1.error + 1 }, running)
  else if stripEmpty resp then
    ({ st1 with error := st1.error + 1 }, running)
  else
    ({ st1 with ok := st1.ok + 1 }, running)

/-! ### Command generation (`test_sequence` lines 95-143) -/

/-- `malformed_examples` (lines 95-98). -/
def malformed_examples : List String :=
  ["XXX", "SF;;", "SW;abc", "SA;-1", "SF;999999", "", "SW", "SA;",
   "SONN", "SOOF", "SON;1", "SOFF;0", "son", "soff"]

/-- Parameter range constants (lines 38-43). -/
def MIN_FREQ : Nat := 1
def MAX_FREQ : Nat := 59
def MIN_WIDTH : Nat := 1
def MAX_WIDTH : Nat := 10
def MIN_AMP : Nat := 1
def MAX_AMP : Nat := 30

/-- The weighted command pool (lines 100-108).  `CMD_WEIGHTS` is an
insertion-ordered dict `SF:1, SW:1, SA:1, SON:3, SOFF:3`. -/
def cmdPool (focus_startstop rapid_toggle : Bool) : List String :=
  if focus_startstop then
    ["SON", "SON", "SON", "SON", "SON",
     "SOFF", "SOFF", "SOFF", "SOFF", "SOFF", "SF", "SW", "SA"]
  else if rapid_toggle then
    ["SON", "SOFF"]
  else
    ["SF", "SW", "SA", "SON", "SON", "SON", "SOFF", "SOFF", "SOFF"]

/-- `random.choice(l)`: an arbitrary element of `l`, driven by an oracle
value `r` reduced modulo the list length. -/
def choose (l : List String) (r : Nat) : String :=
  l.getD (r % l.length) ""

/-- `random.randint(lo, hi)`: an arbitrary value in `[lo, hi]`, driven by an
oracle value `r` (requires `lo ≤ hi`, as at every call site). -/
def randint (lo hi r : Nat) : Nat :=
  lo + r % (hi - lo + 1)

/-- Base command construction from the chosen type (lines 119-134):
`SF`/`SW`/`SA` get a fresh random in-range parameter, `SON`/`SOFF` map to the
literal control commands, anything else passes through. -/
def baseCmd (typ : String) (p : Nat) : String :=
  if typ = "SF" then "SF;" ++ toString (randint MIN_FREQ MAX_FREQ p)
  else if typ = "SW" then "SW;" ++ toString (randint MIN_WIDTH MAX_WIDTH p)
  else if typ = "SA" then "SA;" ++ toString (randint MIN_AMP MAX_AMP p)
  else if typ = "SON" then "SON"
  else if typ = "SOFF" then "SOFF"
  else typ

/-! ### The stress loop (`test_sequence` lines 110-195)

Randomness and the device are modelled as oracles indexed by the iteration
number `i` and the burst position `b`:
* `poolIdx i` drives `random.choice(cmd_pool)` at iteration `i`;
* `paramVal i` drives `random.randint` for the parameter value;
* `rand i` is the value of `random.random()` (a rational in `[0,1)`)
  compared against `malformed_pct` at iteration `i`;
* `malfIdx i b` drives `random.choice(malformed_examples)` for burst
  element `b` of iteration `i` (the call sits inside the burst loop);
* `resp i b` is the device's raw response to burst element `b` of
  iteration `i`.
-/

structure Oracle where
  poolIdx : Nat → Nat
  paramVal : Nat → Nat
  rand : Nat → Rat
  malfIdx : Nat → Nat → Nat
  resp : Nat → Nat → String

/-- The configuration arguments of `test_sequence` that shape the loop
(line 83): iteration count, burst size, malformed fraction, mode flags.
`delay`, `flood` and `verbose` only affect timing and printing, not the
computed statistics, and are omitted. -/
structure Config where
  iters : Nat
  burst : Nat
  pct : Rat
  focus_startstop : Bool
  rapid_toggle : Bool

/-- The inner burst loop (lines 139-193): process burst elements
`b, b+1, ...` while the fuel lasts, threading `(stats, system_running)`.
Each element re-draws the malformed string when `isMalf` is set
(line 141 sits inside the burst loop). -/
def burstFrom (orc : Oracle) (i : Nat) (isMalf : Bool) (base : String) :
    Nat → Nat → Stats × Bool → Stats × Bool
  | _, 0, s => s
  | b, n + 1, s =>
    let cmd := if isMalf then choose malformed_examples (orc.malfIdx i b) else base
    burstFrom orc i isMalf base (b + 1) n (classifyStep cmd (orc.resp i b) s.1 s.2)

/-- One iteration of the outer loop (lines 112-193): choose the command
type (rapid-toggle alternation or a weighted random choice), build the base
command, decide malformed injection once for the round (line 137), then run
the burst. -/
def iterStep (orc : Oracle) (cfg : Config) (i : Nat) (s : Stats × Bool) :
    Stats × Bool :=
  let typ :=
    if cfg.rapid_toggle then (if s.2 then "SOFF" else "SON")
    else choose (cmdPool cfg.focus_startstop cfg.rapid_toggle) (orc.poolIdx i)
  let base := baseCmd typ (orc.paramVal i)
  let isMalf := decide (orc.rand i < cfg.pct)
  burstFrom orc i isMalf base 0 cfg.burst s

/-- The outer loop `for i in range(iters)` (line 112), as recursion on the
remaining iteration count. -/
def runFrom (orc : Oracle) (cfg : Config) :
    Nat → Nat → Stats × Bool → Stats × Bool
  | _, 0, s => s
  | i, n + 1, s => runFrom orc cfg (i + 1) n (iterStep orc cfg i s)

/-- `test_sequence` (lines 83-195): fresh statistics, `system_running = True`
(line 110), then `iters` iterations; returns the final statistics and the
final tracked state. -/
def test_sequence (orc : Oracle) (cfg : Config) : Stats × Bool :=
  runFrom orc cfg 0 cfg.iters (stats0, true)

/-- Number of times command `c` occurs in the recorded `(cmd, resp)` list:
"number of `c` commands sent". -/
def countCmd (c : String) (l : List (String × String)) : Nat :=
  (l.filter fun p => p.1 == c).length

/-- The statistics invariant of the engine: every sent command was counted
exactly once as `ok` or `error`, and the start/stop breakdown counters sum
to the number of `SON` (resp. `SOFF`) commands sent. -/
def statsInv (st : Stats) : Prop :=
  st.ok + st.error = st.sent ∧
  st.start_ok + st.start_err = countCmd "SON" st.responses ∧
  st.stop_ok + st.stop_err = countCmd "SOFF" st.responses

/-- Are all elements of the list equal (to the first one)? -/
def allSame (l : List String) : Bool :=
  match l with
  | [] => true
  | x :: xs => xs.all fun y => y == x

/-- The configuration of a plain rapid-toggle invocation
(`--rapid-toggle` with default `burst=1`, `malformed_pct=0.0`). -/
def rapidCfg (N : Nat) : Config :=
  { iters := N, burst := 1, pct := 0, focus_startstop := false, rapid_toggle := true }

/-- The command sequence produced by `n` rapid-toggle rounds starting from
tracked state `r`: `SOFF` when running, `SON` when stopped, flipping the
state each round. -/
def toggleCmds : Bool → Nat → List String
  | _, 0 => []
  | r, n + 1 => (if r then "SOFF" else "SON") :: toggleCmds (!r) n

/-- A trivial oracle (all draws zero, all responses empty). -/
def orc0 : Oracle :=
  ⟨fun _ => 0, fun _ => 0, fun _ => 0, fun _ _ => 0, fun _ _ => ""⟩

/-- Oracle whose malformed draw at burst position `b` is `b` itself, so a
burst walks through successive catalog entries; every response is `"OK"`. -/
def orc3 : Oracle :=
  ⟨fun _ => 0, fun _ => 0, fun _ => 0, fun _ b => b, fun _ _ => "OK"⟩

/-- Oracle for rapid-toggle runs: every response is `"OK"`. -/
def orcW : Oracle :=
  ⟨fun _ => 0, fun _ => 0, fun _ => 0, fun _ _ => 0, fun _ _ => "OK"⟩

/-! ### The framed-response reader (`read_until_prompt`, lines 55-70)

The wall clock and the serial input are modelled as oracles indexed by the
number of `time.time()` calls made so far: `clock k` is the value returned
by the `k`-th call (call `0` computes the deadline `end`, line 56), and
`chunk k` is the text decoded from the bytes `ser.read` returns in the loop
iteration guarded by the `k`-th clock reading.  Time is discrete; that each
loop iteration takes positive, bounded time (the 2 ms sleep on empty reads,
the read itself) becomes the strict-monotonicity / bounded-step hypotheses
of the theorems. -/

structure Channel where
  clock : Nat → Nat
  chunk : Nat → String

/-- `PROMPT = '>'` (line 28). -/
def PROMPT : String := ">"

/-- The `while time.time() < end` loop of `read_until_prompt` (lines 58-69):
at clock index `k`, stop when the deadline has passed; otherwise read a
chunk; an empty chunk just sleeps and retries; a non-empty chunk is
appended and the loop breaks if it contains the prompt.  `fuel` bounds the
recursion; the theorems prove that `fuel = timeout` already makes the
result fuel-independent, so the bound is never what stops the loop.
Returns the accumulated chunks and the index of the final clock reading. -/
def readLoop (ch : Channel) (endT : Nat) :
    Nat → Nat → List String → List String × Nat
  | k, 0, acc => (acc, k)
  | k, fuel + 1, acc =>
    if ch.clock k < endT then
      if (ch.chunk k).data.isEmpty then readLoop ch endT (k + 1) fuel acc
      else if strHas (ch.chunk k) PROMPT then (acc ++ [ch.chunk k], k)
      else readLoop ch endT (k + 1) fuel (acc ++ [ch.chunk k])
    else (acc, k)

/-- `read_until_prompt(ser, timeout)` (lines 55-70): set the deadline
`end = time.time() + timeout`, run the polling loop, join the chunks.
Also returns the index of the clock reading at which the loop exited. -/
def read_until_prompt (ch : Channel) (timeout fuel : Nat) : String × Nat :=
  let endT := ch.clock 0 + timeout
  let r := readLoop ch endT 1 fuel []
  (String.join r.1, r.2)

/-- A channel on which no data ever arrives, with a unit-step clock. -/
def idleChannel : Channel :=
  ⟨fun k => k, fun _ => ""⟩

/-! ### Helper lemmas -/

lemma hasSubL_head_notmem (a : Char) (p l : List Char)
    (h : ∀ c ∈ l, c ≠ a) : hasSubL l (a :: p) = false := by
  induction l with
  | nil => rfl
  | cons c cs ih =>
    have hc : (c == a) = false := by
      have := h c (List.mem_cons_self c cs)
      simpa using this
    have hrest : hasSubL cs (a :: p) = false :=
      ih fun d hd => h d (List.mem_cons_of_mem c hd)
    simp [hasSubL, startsL, hc, hrest]

lemma toNat_ofNat_valid {n : Nat} (h : n.isValidChar) :
    (Char.ofNat n).toNat = n := by
  rw [Char.ofNat, dif_pos h]
  rfl

/-- `Char.toLower` never produces an upper-case basic-latin letter, in
particular never `'U'`. -/
lemma toLower_ne_U (c : Char) : Char.toLower c ≠ 'U' := by
  intro hEq
  simp only [Char.toLower] at hEq
  split at hEq
  · next hcond =>
    have hv : (c.toNat + 32).isValidChar := Or.inl (by omega)
    have h2 := congrArg Char.toNat hEq
    rw [toNat_ofNat_valid hv] at h2
    have hU : ('U' : Char).toNat = 85 := by decide
    rw [hU] at h2
    omega
  · next hcond =>
    rw [hEq] at hcond
    exact hcond (by decide)

/-- The second disjunct of `is_error` is vacuous: a lower-cased string can
never contain the upper-case literal `"UNKNOWN"`. -/
lemma strLower_no_UNKNOWN (s : String) : strHas (strLower s) "UNKNOWN" = false := by
  show hasSubL (s.data.map Char.toLower) ('U' :: "NKNOWN".data) = false
  apply hasSubL_head_notmem
  intro c hc
  rcases List.mem_map.mp hc with ⟨d, _, hd⟩
  rw [← hd]
  exact toLower_ne_U d

/-! ### Claims about the response classifier -/

/-- **C1** (code bug): for a parameter-set command, a response that contains
no success keyword but does contain the word "unknown" is counted `ok`, not
`error`, because `'UNKNOWN' in resp_upper.lower()` (line 166) searches for
an upper-case literal inside a lower-cased string and is therefore always
false.  The first conjunct proves the vacuity of that check for every
string; the rest evaluates the classifier at the failing input
`cmd = "SF;5"`, `resp = "unknown cmd"`. -/
theorem C1_unknown_check_vacuous :
    (∀ s : String, strHas (strLower s) "UNKNOWN" = false) ∧
    (classifyStep "SF;5" "unknown cmd" stats0 true).1.ok = 1 ∧
    (classifyStep "SF;5" "unknown cmd" stats0 true).1.error = 0 :=
  ⟨strLower_no_UNKNOWN, by decide, by decide⟩

/-- **C4**: a response to `SON` containing any of "OK", "STARTED",
"STOPPED" or "ALREADY" (case-insensitively, i.e. `ctrlSuccess`) sets the
tracked state to Running (`true`); the same response to `SOFF` sets it to
Stopped (`false`) — unconditionally, including on an "ALREADY" match. -/
theorem C4_ctrl_success_sets_state (resp : String) (st : Stats) (r : Bool)
    (h : ctrlSuccess resp = true) :
    (classifyStep "SON" resp st r).2 = true ∧
    (classifyStep "SOFF" resp st r).2 = false := by
  unfold ctrlSuccess at h
  constructor
  · unfold classifyStep
    rw [if_pos rfl, if_pos h]
  · unfold classifyStep
    rw [if_neg (by decide : ¬("SOFF" = "SON")), if_pos rfl, if_pos h]

/-- Witness for C4 at the concrete response `"ALREADY"`. -/
theorem C4_ctrl_success_sets_state_witness :
    (classifyStep "SON" "ALREADY" stats0 false).2 = true ∧
    (classifyStep "SOFF" "ALREADY" stats0 false).2 = false :=
  C4_ctrl_success_sets_state "ALREADY" stats0 false (by decide)

/-- **C5**: a response to a control command containing none of "OK",
"STARTED", "STOPPED", "ALREADY" (in particular the empty response)
classifies Error: `start_err` (resp. `stop_err`) and `error` are
incremented and the tracked state is left unchanged. -/
theorem C5_ctrl_failure (resp : String) (st : Stats) (r : Bool)
    (h : ctrlSuccess resp = false) :
    classifyStep "SON" resp st r =
      ({ bump st "SON" resp with
          start_err := st.start_err + 1, error := st.error + 1 }, r) ∧
    classifyStep "SOFF" resp st r =
      ({ bump st "SOFF" resp with
          stop_err := st.stop_err + 1, error := st.error + 1 }, r) := by
  unfold ctrlSuccess at h
  have h' : ¬((is_ok resp || is_already resp) = true) := by simp [h]
  constructor
  · unfold classifyStep
    rw [if_pos rfl, if_neg h']
    rfl
  · unfold classifyStep
    rw [if_neg (by decide : ¬("SOFF" = "SON")), if_pos rfl, if_neg h']
    rfl

/-- Witness for C5 at the empty response. -/
theorem C5_ctrl_failure_witness :
    classifyStep "SON" "" stats0 true =
      ({ bump stats0 "SON" "" with start_err := 1, error := 1 }, true) ∧
    classifyStep "SOFF" "" stats0 true =
      ({ bump stats0 "SOFF" "" with stop_err := 1, error := 1 }, true) :=
  C5_ctrl_failure "" stats0 true (by decide)

/-- **C6** (frame property): the tracked state is mutated only by the exact
command strings `"SON"` and `"SOFF"`; classifying the response to any other
command — parameter-set commands as well as every malformed catalog entry
such as `"son"`, `"soff"`, `"SON;1"`, `"SONN"` — leaves it unchanged. -/
theorem C6_state_frame (cmd resp : String) (st : Stats) (r : Bool)
    (h1 : cmd ≠ "SON") (h2 : cmd ≠ "SOFF") :
    (classifyStep cmd resp st r).2 = r := by
  unfold classifyStep
  rw [if_neg h1, if_neg h2]
  repeat' split
  all_goals rfl

/-- Witness for C6 at the malformed catalog entry `"son"`. -/
theorem C6_state_frame_witness :
    (classifyStep "son" "OK" stats0 false).2 = false :=
  C6_state_frame "son" "OK" stats0 false (by decide) (by decide)

/-! ### Bookkeeping lemmas for the main loop -/

lemma classifyStep_sent (cmd resp : String) (st : Stats) (r : Bool) :
    (classifyStep cmd resp st r).1.sent = st.sent + 1 := by
  unfold classifyStep
  repeat' split
  all_goals rfl

lemma classifyStep_responses (cmd resp : String) (st : Stats) (r : Bool) :
    (classifyStep cmd resp st r).1.responses = st.responses ++ [(cmd, resp)] := by
  unfold classifyStep
  repeat' split
  all_goals rfl

lemma choose_mem (l : List String) (hl : l ≠ []) (r : Nat) : choose l r ∈ l := by
  unfold choose
  have hlen : 0 < l.length := List.length_pos.mpr hl
  have hm : r % l.length < l.length := Nat.mod_lt _ hlen
  rw [List.getD_eq_getElem _ _ hm]
  exact List.getElem_mem hm

lemma burstFrom_sent (orc : Oracle) (i : Nat) (mal : Bool) (base : String) :
    ∀ (n b : Nat) (s : Stats × Bool),
      (burstFrom orc i mal base b n s).1.sent = s.1.sent + n := by
  intro n
  induction n with
  | zero => intro b s; rfl
  | succ m ih =>
    intro b s
    show (burstFrom orc i mal base (b + 1) m _).1.sent = _
    rw [ih]
    rw [classifyStep_sent]
    omega

lemma burstFrom_resp_len (orc : Oracle) (i : Nat) (mal : Bool) (base : String) :
    ∀ (n b : Nat) (s : Stats × Bool),
      (burstFrom orc i mal base b n s).1.responses.length
        = s.1.responses.length + n := by
  intro n
  induction n with
  | zero => intro b s; rfl
  | succ m ih =>
    intro b s
    show (burstFrom orc i mal base (b + 1) m _).1.responses.length = _
    rw [ih, classifyStep_responses, List.length_append]
    simp
    omega

lemma iterStep_sent (orc : Oracle) (cfg : Config) (i : Nat) (s : Stats × Bool) :
    (iterStep orc cfg i s).1.sent = s.1.sent + cfg.burst := by
  unfold iterStep
  exact burstFrom_sent orc i _ _ cfg.burst 0 s

lemma iterStep_resp_len (orc : Oracle) (cfg : Config) (i : Nat) (s : Stats × Bool) :
    (iterStep orc cfg i s).1.responses.length
      = s.1.responses.length + cfg.burst := by
  unfold iterStep
  exact burstFrom_resp_len orc i _ _ cfg.burst 0 s

lemma runFrom_sent (orc : Oracle) (cfg : Config) :
    ∀ (n i : Nat) (s : Stats × Bool),
      (runFrom orc cfg i n s).1.sent = s.1.sent + n * cfg.burst := by
  intro n
  induction n with
  | zero => intro i s; simp [runFrom]
  | succ m ih =>
    intro i s
    show (runFrom orc cfg (i + 1) m _).1.sent = _
    rw [ih, iterStep_sent]
    ring

/-- Every response pair recorded by an all-malformed burst either predates
the burst or carries a command drawn from the malformed catalog. -/
lemma burstFrom_malf_mem (orc : Oracle) (i : Nat) (base : String) :
    ∀ (n b : Nat) (s : Stats × Bool),
      ∀ p ∈ (burstFrom orc i true base b n s).1.responses,
        p ∈ s.1.responses ∨ p.1 ∈ malformed_examples := by
  intro n
  induction n with
  | zero => intro b s p hp; exact Or.inl hp
  | succ m ih =>
    intro b s p hp
    have hp' : p ∈ (burstFrom orc i true base (b + 1) m
        (classifyStep (choose malformed_examples (orc.malfIdx i b))
          (orc.resp i b) s.1 s.2)).1.responses := hp
    rcases ih (b + 1) _ p hp' with h | h
    · rw [classifyStep_responses] at h
      rcases List.mem_append.mp h with h' | h'
      · exact Or.inl h'
      · right
        rw [List.mem_singleton.mp h']
        exact choose_mem malformed_examples (by decide) _
    · exact Or.inr h

lemma runFrom_resp_len (orc : Oracle) (cfg : Config) :
    ∀ (n i : Nat) (s : Stats × Bool),
      (runFrom orc cfg i n s).1.responses.length
        = s.1.responses.length + n * cfg.burst := by
  intro n
  induction n with
  | zero => intro i s; simp [runFrom]
  | succ m ih =>
    intro i s
    show (runFrom orc cfg (i + 1) m _).1.responses.length = _
    rw [ih, iterStep_resp_len]
    ring

/-! ### Claims about the run as a whole -/

/-- **C2** (counterexample): at the start of a run — here a run of zero
iterations, so no response was ever classified — the tracked state is
already Running (`system_running = True`, line 110), not Unknown; the
tracker is a boolean with no Unknown value at all. -/
theorem C2_counterexample_initial_state :
    (test_sequence orc0
      { iters := 0, burst := 1, pct := 0,
        focus_startstop := false, rapid_toggle := false }).2 = true := rfl

/-- **C2** (amended): before the first iteration — for any oracle and any
configuration with zero iterations — the tracked state is Running
(`true`) and the statistics are fresh. -/
theorem C2_amended_initial_running (orc : Oracle) (cfg : Config)
    (h : cfg.iters = 0) : test_sequence orc cfg = (stats0, true) := by
  unfold test_sequence
  rw [h]
  rfl

/-- Witness for the amended C2 at a concrete zero-iteration configuration. -/
theorem C2_amended_initial_running_witness :
    test_sequence orc0
      { iters := 0, burst := 1, pct := 0,
        focus_startstop := false, rapid_toggle := false } = (stats0, true) :=
  C2_amended_initial_running orc0 _ rfl

/-- **C3** (counterexample): one round with `burst=5, malformed_pct=1.0`
and an oracle whose successive malformed draws differ sends five
*different* catalog entries — `random.choice(malformed_examples)` is
evaluated per burst element (line 141 is inside the burst loop), so the
round does not reuse a single malformed string. -/
theorem C3_counterexample_distinct_burst :
    ((test_sequence orc3
        { iters := 1, burst := 5, pct := 1,
          focus_startstop := false, rapid_toggle := false }).1.responses.map
      Prod.fst) = ["XXX", "SF;;", "SW;abc", "SA;-1", "SF;999999"] ∧
    allSame ((test_sequence orc3
        { iters := 1, burst := 5, pct := 1,
          focus_startstop := false, rapid_toggle := false }).1.responses.map
      Prod.fst) = false := by
  constructor
  · rfl
  · rfl

/-- **C3** (amended): with `burst=5, malformed_pct=1.0`, the round's five
commands are all malformed — the is-malformed decision is made once per
round (line 137) and shared by the whole burst — but each burst element
draws its own entry from the malformed catalog, so the five strings need
not coincide. -/
theorem C3_amended_burst_all_malformed (orc : Oracle)
    (h : orc.rand 0 < 1) :
    ((test_sequence orc
        { iters := 1, burst := 5, pct := 1,
          focus_startstop := false, rapid_toggle := false }).1.responses.length = 5) ∧
    ∀ p ∈ (test_sequence orc
        { iters := 1, burst := 5, pct := 1,
          focus_startstop := false, rapid_toggle := false }).1.responses,
      p.1 ∈ malformed_examples := by
  constructor
  · have := runFrom_resp_len orc
      { iters := 1, burst := 5, pct := 1,
        focus_startstop := false, rapid_toggle := false } 1 0 (stats0, true)
    simpa [test_sequence, stats0] using this
  · intro p hp
    have hp' : p ∈ (burstFrom orc 0 (decide (orc.rand 0 < (1 : Rat)))
        (baseCmd (choose (cmdPool false false) (orc.poolIdx 0)) (orc.paramVal 0))
        0 5 (stats0, true)).1.responses := hp
    rw [decide_eq_true h] at hp'
    rcases burstFrom_malf_mem orc 0 _ 5 0 (stats0, true) p hp' with h' | h'
    · simp [stats0] at h'
    · exact h'

/-- Witness for the amended C3: the oracle `orc3` satisfies
`rand 0 = 0 < 1`. -/
theorem C3_amended_burst_all_malformed_witness :
    ((test_sequence orc3
        { iters := 1, burst := 5, pct := 1,
          focus_startstop := false, rapid_toggle := false }).1.responses.length = 5) ∧
    ∀ p ∈ (test_sequence orc3
        { iters := 1, burst := 5, pct := 1,
          focus_startstop := false, rapid_toggle := false }).1.responses,
      p.1 ∈ malformed_examples :=
  C3_amended_burst_all_malformed orc3 (show (0 : Rat) < 1 by norm_num)

/-- **C8**: a run of `iters` rounds with burst size `burst` processes every
round to completion — whatever the oracle makes of each response — and
records exactly `iters * burst` sent commands and as many response pairs.
(The embedding models the fault-free transport: only a raised I/O error
could end the Python loop early, and none occurs here.) -/
theorem C8_run_to_completion (orc : Oracle) (cfg : Config) :
    (test_sequence orc cfg).1.sent = cfg.iters * cfg.burst ∧
    (test_sequence orc cfg).1.responses.length = cfg.iters * cfg.burst := by
  constructor
  · have := runFrom_sent orc cfg cfg.iters 0 (stats0, true)
    simpa [test_sequence, stats0] using this
  · have := runFrom_resp_len orc cfg cfg.iters 0 (stats0, true)
    simpa [test_sequence, stats0] using this

/-! ### The statistics invariant (C10) -/

lemma countCmd_append (c : String) (l : List (String × String)) (cmd resp : String) :
    countCmd c (l ++ [(cmd, resp)]) = countCmd c l + (if cmd = c then 1 else 0) := by
  unfold countCmd
  rw [List.filter_append]
  by_cases h : cmd = c
  · subst h
    simp
  · have hb : ((cmd, resp).1 == c) = false := by simpa using h
    simp [hb, h]

/-- Classifying one command/response pair preserves the statistics
invariant: the fresh `sent` is matched by exactly one of `ok`/`error`, and
the start/stop breakdowns track the `SON`/`SOFF` command counts. -/
lemma statsInv_step (cmd resp : String) (st : Stats) (r : Bool)
    (hInv : statsInv st) : statsInv (classifyStep cmd resp st r).1 := by
  obtain ⟨h1, h2, h3⟩ := hInv
  unfold classifyStep
  repeat' split
  all_goals (try subst_vars)
  all_goals (
    refine ⟨?_, ?_, ?_⟩ <;>
      simp only [statsInv, bump, countCmd_append] <;>
      (try simp_all) <;> omega)

lemma burstFrom_inv (orc : Oracle) (i : Nat) (mal : Bool) (base : String) :
    ∀ (n b : Nat) (s : Stats × Bool),
      statsInv s.1 → statsInv (burstFrom orc i mal base b n s).1 := by
  intro n
  induction n with
  | zero => intro b s h; exact h
  | succ m ih =>
    intro b s h
    exact ih (b + 1) _ (statsInv_step _ _ _ _ h)

lemma runFrom_inv (orc : Oracle) (cfg : Config) :
    ∀ (n i : Nat) (s : Stats × Bool),
      statsInv s.1 → statsInv (runFrom orc cfg i n s).1 := by
  intro n
  induction n with
  | zero => intro i s h; exact h
  | succ m ih =>
    intro i s h
    exact ih (i + 1) _ (burstFrom_inv orc i _ _ cfg.burst 0 s h)

/-- **C10**: the statistics invariant `ok + error = sent`,
`start_ok + start_err = #SON sent`, `stop_ok + stop_err = #SOFF sent` holds
initially, is preserved by every single classified command, and therefore
holds after any run of the engine. -/
theorem C10_stats_invariant :
    statsInv stats0 ∧
    (∀ (cmd resp : String) (st : Stats) (r : Bool),
        statsInv st → statsInv (classifyStep cmd resp st r).1) ∧
    (∀ (orc : Oracle) (cfg : Config), statsInv (test_sequence orc cfg).1) :=
  ⟨⟨rfl, rfl, rfl⟩, statsInv_step,
    fun orc cfg => runFrom_inv orc cfg cfg.iters 0 (stats0, true) ⟨rfl, rfl, rfl⟩⟩

/-- Witness for C10: the preservation conjunct applied at a concrete
command, response and state. -/
theorem C10_stats_invariant_witness :
    statsInv (classifyStep "SON" "OK" stats0 true).1 :=
  C10_stats_invariant.2.1 "SON" "OK" stats0 true ⟨rfl, rfl, rfl⟩

/-! ### Rapid-toggle determinism (C7) -/

lemma classifyStep_SON_success (resp : String) (st : Stats) (r : Bool)
    (h : ctrlSuccess resp = true) :
    classifyStep "SON" resp st r =
      ({ bump st "SON" resp with
          start_ok := st.start_ok + 1, ok := st.ok + 1 }, true) := by
  unfold ctrlSuccess at h
  unfold classifyStep
  rw [if_pos rfl, if_pos h]
  rfl

lemma classifyStep_SOFF_success (resp : String) (st : Stats) (r : Bool)
    (h : ctrlSuccess resp = true) :
    classifyStep "SOFF" resp st r =
      ({ bump st "SOFF" resp with
          stop_ok := st.stop_ok + 1, ok := st.ok + 1 }, false) := by
  unfold ctrlSuccess at h
  unfold classifyStep
  rw [if_neg (by decide : ¬("SOFF" = "SON")), if_pos rfl, if_pos h]
  rfl

/-- One rapid-toggle round sends `SOFF` when running and `SON` when
stopped, and (on a successful response) flips the tracked state. -/
lemma iterStep_toggle (orc : Oracle) (N i : Nat) (st : Stats) (r : Bool)
    (h0 : 0 ≤ orc.rand i) (hs : ctrlSuccess (orc.resp i 0) = true) :
    (iterStep orc (rapidCfg N) i (st, r)).1.responses
        = st.responses ++ [((if r then "SOFF" else "SON"), orc.resp i 0)] ∧
    (iterStep orc (rapidCfg N) i (st, r)).2 = !r := by
  have hm : decide (orc.rand i < (0 : Rat)) = false :=
    decide_eq_false (not_lt.mpr h0)
  cases r with
  | true =>
    have h1 : iterStep orc (rapidCfg N) i (st, true)
        = burstFrom orc i (decide (orc.rand i < (0 : Rat))) "SOFF" 0 1 (st, true) := rfl
    rw [h1, hm]
    have h2 : burstFrom orc i false "SOFF" 0 1 (st, true)
        = classifyStep "SOFF" (orc.resp i 0) st true := rfl
    rw [h2, classifyStep_SOFF_success _ _ _ hs]
    exact ⟨rfl, rfl⟩
  | false =>
    have h1 : iterStep orc (rapidCfg N) i (st, false)
        = burstFrom orc i (decide (orc.rand i < (0 : Rat))) "SON" 0 1 (st, false) := rfl
    rw [h1, hm]
    have h2 : burstFrom orc i false "SON" 0 1 (st, false)
        = classifyStep "SON" (orc.resp i 0) st false := rfl
    rw [h2, classifyStep_SON_success _ _ _ hs]
    exact ⟨rfl, rfl⟩

lemma runFrom_toggle (orc : Oracle) (N : Nat)
    (h0 : ∀ i, 0 ≤ orc.rand i)
    (hs : ∀ i, ctrlSuccess (orc.resp i 0) = true) :
    ∀ (n i : Nat) (st : Stats) (r : Bool),
      ((runFrom orc (rapidCfg N) i n (st, r)).1.responses.map Prod.fst
          = st.responses.map Prod.fst ++ toggleCmds r n) ∧
      ((runFrom orc (rapidCfg N) i n (st, r)).2
          = (if n % 2 = 0 then r else !r)) := by
  intro n
  induction n with
  | zero =>
    intro i st r
    exact ⟨by simp [runFrom, toggleCmds], by simp [runFrom]⟩
  | succ m ih =>
    intro i st r
    have hit := iterStep_toggle orc N i st r (h0 i) (hs i)
    have hrun : runFrom orc (rapidCfg N) i (m + 1) (st, r)
        = runFrom orc (rapidCfg N) (i + 1) m
            ((iterStep orc (rapidCfg N) i (st, r)).1,
             (iterStep orc (rapidCfg N) i (st, r)).2) := rfl
    rcases ih (i + 1) (iterStep orc (rapidCfg N) i (st, r)).1
      (iterStep orc (rapidCfg N) i (st, r)).2 with ⟨ih1, ih2⟩
    constructor
    · rw [hrun, ih1, hit.1, hit.2]
      simp [toggleCmds]
    · rw [hrun, ih2, hit.2]
      rcases Nat.mod_two_eq_zero_or_one m with hm | hm
      · have hm1 : (m + 1) % 2 = 1 := by omega
        simp [hm, hm1]
      · have hm0 : (m + 1) % 2 = 0 := by omega
        simp [hm, hm0]

/-- **C7**: in rapid-toggle mode (burst 1, no malformed injection), as long
as every response classifies as success, the sequence of commands sent is
the strict `SOFF`/`SON` alternation determined by the tracked state
(`SOFF` when Running, `SON` when Stopped, starting from Running), and after
`N` rounds the tracked state equals the initial state (Running) exactly
when `N` is even. -/
theorem C7_rapid_toggle_alternation (orc : Oracle) (N : Nat)
    (h0 : ∀ i, 0 ≤ orc.rand i)
    (hs : ∀ i, ctrlSuccess (orc.resp i 0) = true) :
    ((test_sequence orc (rapidCfg N)).1.responses.map Prod.fst
        = toggleCmds true N) ∧
    ((test_sequence orc (rapidCfg N)).2 = true ↔ N % 2 = 0) := by
  rcases runFrom_toggle orc N h0 hs N 0 stats0 true with ⟨h1, h2⟩
  constructor
  · simpa [test_sequence, stats0] using h1
  · have h2' : (test_sequence orc (rapidCfg N)).2
        = (if N % 2 = 0 then true else !true) := by
      simpa [test_sequence] using h2
    rw [h2']
    rcases Nat.mod_two_eq_zero_or_one N with hN | hN
    · simp [hN]
    · simp [hN]

/-- Witness for C7: two toggle rounds against an all-`"OK"` device return
the state to Running. -/
theorem C7_rapid_toggle_alternation_witness :
    ((test_sequence orcW (rapidCfg 2)).1.responses.map Prod.fst
        = toggleCmds true 2) ∧
    ((test_sequence orcW (rapidCfg 2)).2 = true ↔ 2 % 2 = 0) :=
  C7_rapid_toggle_alternation orcW 2 (fun _ => le_refl 0)
    (fun _ => (by decide : ctrlSuccess "OK" = true))

/-! ### Bounded wait of the framed reader (C9) -/

/-- The polling loop only ever stops at a clock reading at most one step
past the deadline: every recursive call is guarded by `clock k < endT`. -/
lemma readLoop_clock_le (ch : Channel) (endT δ : Nat)
    (hstep : ∀ k, ch.clock (k + 1) ≤ ch.clock k + δ) :
    ∀ (fuel k : Nat) (acc : List String),
      ch.clock k ≤ endT + δ →
      ch.clock (readLoop ch endT k fuel acc).2 ≤ endT + δ := by
  intro fuel
  induction fuel with
  | zero => intro k acc h; exact h
  | succ m ih =>
    intro k acc h
    unfold readLoop
    split
    · next hlt =>
      split
      · exact ih (k + 1) acc (by have := hstep k; omega)
      · split
        · exact h
        · exact ih (k + 1) _ (by have := hstep k; omega)
    · exact h

/-- With a strictly increasing clock, fuel equal to the remaining time
budget is enough: adding more fuel does not change the result, i.e. the
loop always exits through its own conditions, never by fuel exhaustion. -/
lemma readLoop_fuel_stable (ch : Channel) (endT : Nat)
    (hmono : ∀ k, ch.clock k < ch.clock (k + 1)) :
    ∀ (fuel k : Nat) (acc : List String),
      endT ≤ ch.clock k + fuel →
      readLoop ch endT k (fuel + 1) acc = readLoop ch endT k fuel acc := by
  intro fuel
  induction fuel with
  | zero =>
    intro k acc h
    unfold readLoop
    rw [if_neg (not_lt.mpr (by omega))]
  | succ m ih =>
    intro k acc h
    by_cases hlt : ch.clock k < endT
    · have hrec : endT ≤ ch.clock (k + 1) + m := by
        have := hmono k; omega
      show readLoop ch endT k (m + 1 + 1) acc = readLoop ch endT k (m + 1) acc
      unfold readLoop
      rw [if_pos hlt, if_pos hlt]
      split
      · exact ih (k + 1) acc hrec
      · split
        · rfl
        · exact ih (k + 1) _ hrec
    · unfold readLoop
      rw [if_neg hlt, if_neg hlt]

lemma readLoop_fuel_ge (ch : Channel) (endT : Nat)
    (hmono : ∀ k, ch.clock k < ch.clock (k + 1)) :
    ∀ (d fuel k : Nat) (acc : List String),
      endT ≤ ch.clock k + fuel →
      readLoop ch endT k (fuel + d) acc = readLoop ch endT k fuel acc := by
  intro d
  induction d with
  | zero => intro fuel k acc _; rfl
  | succ m ih =>
    intro fuel k acc h
    calc readLoop ch endT k (fuel + m + 1) acc
        = readLoop ch endT k (fuel + m) acc :=
          readLoop_fuel_stable ch endT hmono (fuel + m) k acc (by omega)
      _ = readLoop ch endT k fuel acc := ih fuel k acc h

/-- On a channel with no data the accumulated chunk list stays empty. -/
lemma readLoop_idle_empty :
    ∀ (f endT k : Nat), (readLoop idleChannel endT k f []).1 = [] := by
  intro f
  induction f with
  | zero => intro endT k; rfl
  | succ m ih =>
    intro endT k
    unfold readLoop
    split
    · exact ih endT (k + 1)
    · rfl

/-- **C9**: `read_until_prompt` with timeout `T` is a bounded wait, whether
or not the prompt `'>'` ever arrives.  If each clock step is positive
(strict monotonicity: every loop iteration takes at least one time unit —
the 2 ms sleep / the read itself) and bounded by `δ`, then (i) fuel `T`
already determines the result, i.e. the loop always exits through its own
deadline/prompt tests; (ii) the clock reading at exit is at most
`end + δ = clock 0 + T + δ`, so the function returns within `T` plus one
iteration; and (iii) on a silent channel it returns the empty string. -/
theorem C9_read_bounded (ch : Channel) (timeout δ fuel : Nat)
    (hmono : ∀ k, ch.clock k < ch.clock (k + 1))
    (hstep : ∀ k, ch.clock (k + 1) ≤ ch.clock k + δ)
    (hfuel : timeout ≤ fuel) :
    read_until_prompt ch timeout fuel = read_until_prompt ch timeout timeout ∧
    ch.clock (read_until_prompt ch timeout fuel).2 ≤ ch.clock 0 + timeout + δ ∧
    (read_until_prompt idleChannel timeout fuel).1 = "" := by
  have hkey : readLoop ch (ch.clock 0 + timeout) 1 fuel []
      = readLoop ch (ch.clock 0 + timeout) 1 timeout [] := by
    have h1 : ch.clock 0 + timeout ≤ ch.clock 1 + timeout := by
      have h01 : ch.clock 0 < ch.clock 1 := hmono 0
      omega
    have h2 := readLoop_fuel_ge ch (ch.clock 0 + timeout) hmono
      (fuel - timeout) timeout 1 [] h1
    rw [show timeout + (fuel - timeout) = fuel from by omega] at h2
    exact h2
  refine ⟨?_, ?_, ?_⟩
  · simp only [read_until_prompt]
    rw [hkey]
  · show ch.clock (readLoop ch (ch.clock 0 + timeout) 1 fuel []).2
        ≤ ch.clock 0 + timeout + δ
    apply readLoop_clock_le ch _ δ hstep fuel 1 []
    have h01 : ch.clock 1 ≤ ch.clock 0 + δ := hstep 0
    omega
  · show String.join
        (readLoop idleChannel (idleChannel.clock 0 + timeout) 1 fuel []).1 = ""
    rw [readLoop_idle_empty]
    rfl

/-- Witness for C9 on the silent unit-clock channel with `T = 3`, `δ = 1`,
fuel `5`. -/
theorem C9_read_bounded_witness :
    read_until_prompt idleChannel 3 5 = read_until_prompt idleChannel 3 3 ∧
    idleChannel.clock (read_until_prompt idleChannel 3 5).2
        ≤ idleChannel.clock 0 + 3 + 1 ∧
    (read_until_prompt idleChannel 3 5).1 = "" :=
  C9_read_bounded idleChannel 3 1 5 (fun k => Nat.lt_succ_self k)
    (fun k => Nat.le_refl (k + 1)) (by omega)

end StressUart
